import Mathlib

/-!
Shallow embedding of the `adamani_ai_rag` repository, covering:
  * `config/settings.py` (the configuration values the claims depend on),
  * `core/vectorstore.py` (`VectorStoreManager`: caching, staleness, writes, search),
  * `services/document_service.py` (`DocumentService`: classifier, `process_file`),
  * `services/invoice_extractor.py` (`InvoiceData.validate_date`, the `save_to_db` call),
  * `api/routes/documents.py` (`upload_file` / `process_file_background` job lifecycle).

Pure helpers first, then the state-passing embedding of the vector-store manager
and the document pipeline, then the theorems settling the claims.
-/

/-! ### Settings (config/settings.py) -/

/-- The configuration fields of `Settings` that the verified code paths read
(`vector_store_type`, `retrieval_top_k`, `chunk_size`, `chunk_overlap`). -/
structure Settings where
  vector_store_type : String
  retrieval_top_k : Int
  chunk_size : Int
  chunk_overlap : Int
deriving DecidableEq, Repr

/-- The field defaults declared in `config/settings.py`
(`vector_store_type = "chroma"`, `retrieval_top_k = 3`,
`chunk_size = 1000`, `chunk_overlap = 200`). -/
def defaultSettings : Settings :=
  { vector_store_type := "chroma"
    retrieval_top_k := 3
    chunk_size := 1000
    chunk_overlap := 200 }

/-! ### String helpers mirroring the Python primitives used by the sources -/

/-- Python `str.lower()` on the character sequence of a string
(ASCII lowering; the sources only lower ASCII configuration values and text). -/
def pyLowerData (s : String) : List Char :=
  s.data.map Char.toLower

/-- Python `str.lower()` returning a `String`. -/
def pyLower (s : String) : String :=
  ⟨pyLowerData s⟩

/-- Python `needle in hay` on character lists: `needle` occurs contiguously in
`hay` (the empty needle occurs in every string, as in Python). -/
def hasSubstr (needle : List Char) : List Char → Bool
  | [] => needle.isEmpty
  | c :: rest => needle.isPrefixOf (c :: rest) || hasSubstr needle rest

/-! ### Invoice classifier (`DocumentService._is_invoice`) -/

/-- The fixed keyword list of `DocumentService._is_invoice`
(document_service.py line 58). -/
def keywords : List String :=
  ["invoice", "bill", "total", "amount due", "tax", "invoice no", "invoice #"]

/-- `DocumentService._is_invoice`: lowercases the text and fires when at least
two keywords of the fixed list occur in it
(`sum(1 for kw in keywords if kw in text_lower) >= 2`). -/
def is_invoice (text : String) : Bool :=
  decide (2 ≤ keywords.countP (fun kw => hasSubstr kw.data (pyLowerData text)))

/-- The spec's reading of a keyword match: the keyword occurs as a
case-insensitive substring of the text (both sides lowered). -/
def matchesCaseInsensitive (kw : String) (text : String) : Bool :=
  hasSubstr (pyLowerData kw) (pyLowerData text)

/-! ### Date validation (`InvoiceData.validate_date`) -/

/-- `InvoiceData.validate_date` (invoice_extractor.py lines 29-34), on one
field value.  `none` models Python `None`; the empty character list models
`""`. `if v:` skips validation for both falsy values; otherwise the value must
have length 10 with `'-'` at indices 4 and 7, else `ValueError` is raised. -/
def validate_date (v : Option (List Char)) : Except String (Option (List Char)) :=
  match v with
  | none => Except.ok none
  | some s =>
    if s.isEmpty then Except.ok (some s)
    else if s.length = 10 && s[4]? == some '-' && s[7]? == some '-' then
      Except.ok (some s)
    else
      Except.error "Date must be YYYY-MM-DD"

/-- Whether an `Except` value is the raising branch. -/
def raisesError {ε α : Type} : Except ε α → Bool
  | Except.error _ => true
  | Except.ok _ => false

/-- The claim's wording of the accepted shape: exactly ten characters, four
digit year, dash, two digit month, dash, two digit day.  (Written from the
spec sentence, to be compared against `validate_date` from the source.) -/
def claimed_date_shape (s : List Char) : Bool :=
  match s with
  | [y1, y2, y3, y4, s1, m1, m2, s2, d1, d2] =>
    y1.isDigit && y2.isDigit && y3.isDigit && y4.isDigit && s1 == '-' &&
    m1.isDigit && m2.isDigit && s2 == '-' && d1.isDigit && d2.isDigit
  | _ => false

/-! ### Vector store manager (core/vectorstore.py) -/

/-- A `langchain_core.documents.Document` as the pipeline uses it: the text
content (the metadata plays no role in the verified paths). -/
structure Document where
  page_content : String
deriving DecidableEq, Repr

/-- The two store backends (`Chroma` / `FAISS`). -/
inductive Backend where
  | chroma
  | faiss
deriving DecidableEq, Repr

/-- An in-memory store handle (a `Chroma` or `FAISS` object): its backend
class and the texts it currently holds. -/
structure StoreHandle where
  backend : Backend
  contents : List String
deriving DecidableEq, Repr

/-- The durable state outside the process: the on-disk representation of each
backend at `settings.vectordb_path` (`none` = the directory does not exist). -/
structure World where
  chromaDisk : Option (List String)
  faissDisk : Option (List String)
deriving DecidableEq, Repr

/-- The mutable fields of `VectorStoreManager`: the settings, the cached
`_store` handle and the `_chroma_needs_reload` staleness flag (`__init__`
sets `_store = None` and `_chroma_needs_reload = True`). -/
structure VectorStoreManager where
  settings : Settings
  store : Option StoreHandle
  chromaNeedsReload : Bool
deriving DecidableEq, Repr

/-- The initial text written into a freshly created collection
(vectorstore.py lines 119-122 and 147-150). -/
def initText : String :=
  "This is an empty knowledge base. Add documents to populate it."

/-- `VectorStoreManager._init_chroma`: load the existing collection when the
persist directory exists, otherwise create a new collection holding the
initial text (which also brings the directory into existence). -/
def init_chroma (w : World) : StoreHandle × World :=
  match w.chromaDisk with
  | some c => ({ backend := Backend.chroma, contents := c }, w)
  | none =>
      ({ backend := Backend.chroma, contents := [initText] },
       { w with chromaDisk := some [initText] })

/-- `VectorStoreManager._init_faiss`: load the existing index when the
directory exists, otherwise create a fresh in-memory index holding the
initial text (nothing is written to disk on creation). -/
def init_faiss (w : World) : StoreHandle :=
  match w.faissDisk with
  | some c => { backend := Backend.faiss, contents := c }
  | none => { backend := Backend.faiss, contents := [initText] }

/-- `VectorStoreManager.get_store` (vectorstore.py lines 62-77): for the
Chroma backend, rebuild from disk when no handle exists or the staleness flag
is set, clearing the flag; otherwise reuse the cache.  For FAISS, build once
and cache forever. -/
def get_store (m : VectorStoreManager) (w : World) :
    StoreHandle × VectorStoreManager × World :=
  if pyLower m.settings.vector_store_type = "chroma" then
    match m.store, m.chromaNeedsReload with
    | some h, false => (h, m, w)
    | _, _ =>
        let r := init_chroma w
        (r.1, { m with store := some r.1, chromaNeedsReload := false }, r.2)
  else
    match m.store with
    | some h => (h, m, w)
    | none =>
        let h := init_faiss w
        (h, { m with store := some h }, w)

/-- `VectorStoreManager.refresh_store` (lines 84-88): mark the Chroma cache
stale; a no-op for FAISS. -/
def refresh_store (m : VectorStoreManager) : VectorStoreManager :=
  if pyLower m.settings.vector_store_type = "chroma" then
    { m with chromaNeedsReload := true }
  else m

/-- `VectorStoreManager.add_documents` (lines 173-186): obtain the handle,
append the documents to it, and — when the handle is a Chroma instance —
persist to disk and set the staleness flag. -/
def add_documents (m : VectorStoreManager) (w : World) (documents : List Document) :
    VectorStoreManager × World :=
  let r := get_store m w
  let store2 : StoreHandle :=
    { r.1 with contents := r.1.contents ++ documents.map Document.page_content }
  let m2 : VectorStoreManager := { r.2.1 with store := some store2 }
  if store2.backend = Backend.chroma then
    ({ m2 with chromaNeedsReload := true },
     { r.2.2 with chromaDisk := some store2.contents })
  else (m2, r.2.2)

/-- `VectorStoreManager.add_texts` (lines 188-205): obtain the handle, append
the texts, and — when the handle is a Chroma instance — persist to disk.
Unlike `add_documents`, the staleness flag is left untouched. -/
def add_texts (m : VectorStoreManager) (w : World) (texts : List String) :
    VectorStoreManager × World :=
  let r := get_store m w
  let store2 : StoreHandle := { r.1 with contents := r.1.contents ++ texts }
  let m2 : VectorStoreManager := { r.2.1 with store := some store2 }
  if store2.backend = Backend.chroma then
    (m2, { r.2.2 with chromaDisk := some store2.contents })
  else (m2, r.2.2)

/-- Python `k or self.settings.retrieval_top_k` (vectorstore.py line 219):
`None` and `0` are falsy, every other integer is passed through. -/
def py_or_int (k : Option Int) (d : Int) : Int :=
  match k with
  | none => d
  | some v => if v = 0 then d else v

/-- `VectorStoreManager.similarity_search` (lines 207-223): obtain the handle,
default `k` through Python falsiness, and return the `k` best results of the
backend search, modelled as the first `k` entries of an externally supplied
relevance ranking of the obtained store. -/
def similarity_search (ranked : StoreHandle → String → List Document)
    (m : VectorStoreManager) (w : World) (query : String) (k : Option Int) :
    List Document × VectorStoreManager × World :=
  let r := get_store m w
  let kEff := py_or_int k m.settings.retrieval_top_k
  ((ranked r.1 query).take kEff.toNat, r.2.1, r.2.2)

/-! ### Theorems: C5 (classifier), C8 (date validation) -/

/-- Auxiliary: peel one element off a list of known successor length. -/
theorem length_succ_decomp (l : List Char) (n : Nat) (h : l.length = n + 1) :
    ∃ a t, l = a :: t ∧ t.length = n := by
  cases l with
  | nil => simp at h
  | cons a t => exact ⟨a, t, rfl, by simpa using h⟩

/-- The positional acceptance condition of `validate_date` is exactly the
decomposition into a 4-character, a 2-character and a 2-character segment
separated by dashes (with no constraint on the segment characters). -/
theorem date_positions_iff_decomp (s : List Char) :
    (s.length = 10 ∧ s[4]? = some '-' ∧ s[7]? = some '-') ↔
      (∃ y m d : List Char,
        s = y ++ '-' :: (m ++ '-' :: d) ∧
        y.length = 4 ∧ m.length = 2 ∧ d.length = 2) := by
  constructor
  · rintro ⟨h10, h4, h7⟩
    obtain ⟨c0, s0, rfl, h9⟩ := length_succ_decomp s 9 h10
    obtain ⟨c1, s1, rfl, h8⟩ := length_succ_decomp s0 8 h9
    obtain ⟨c2, s2, rfl, h7l⟩ := length_succ_decomp s1 7 h8
    obtain ⟨c3, s3, rfl, h6⟩ := length_succ_decomp s2 6 h7l
    obtain ⟨c4, s4, rfl, h5⟩ := length_succ_decomp s3 5 h6
    obtain ⟨c5, s5, rfl, h4l⟩ := length_succ_decomp s4 4 h5
    obtain ⟨c6, s6, rfl, h3⟩ := length_succ_decomp s5 3 h4l
    obtain ⟨c7, s7, rfl, h2⟩ := length_succ_decomp s6 2 h3
    obtain ⟨c8, s8, rfl, h1⟩ := length_succ_decomp s7 1 h2
    obtain ⟨c9, s9, rfl, h0⟩ := length_succ_decomp s8 0 h1
    have hs9 : s9 = [] := List.length_eq_zero.mp h0
    subst hs9
    have hc4 : c4 = '-' := by simpa using h4
    have hc7 : c7 = '-' := by simpa using h7
    subst hc4; subst hc7
    exact ⟨[c0, c1, c2, c3], [c5, c6], [c8, c9], rfl, rfl, rfl, rfl⟩
  · rintro ⟨y, m, d, rfl, hy, hm, hd⟩
    obtain ⟨a0, y0, rfl, hy3⟩ := length_succ_decomp y 3 hy
    obtain ⟨a1, y1, rfl, hy2⟩ := length_succ_decomp y0 2 hy3
    obtain ⟨a2, y2, rfl, hy1⟩ := length_succ_decomp y1 1 hy2
    obtain ⟨a3, y3, rfl, hy0⟩ := length_succ_decomp y2 0 hy1
    have hy3nil : y3 = [] := List.length_eq_zero.mp hy0
    subst hy3nil
    obtain ⟨b0, m0, rfl, hm1⟩ := length_succ_decomp m 1 hm
    obtain ⟨b1, m1, rfl, hm0⟩ := length_succ_decomp m0 0 hm1
    have hm1nil : m1 = [] := List.length_eq_zero.mp hm0
    subst hm1nil
    obtain ⟨e0, d0, rfl, hd1⟩ := length_succ_decomp d 1 hd
    obtain ⟨e1, d1, rfl, hd0⟩ := length_succ_decomp d0 0 hd1
    have hd1nil : d1 = [] := List.length_eq_zero.mp hd0
    subst hd1nil
    refine ⟨rfl, rfl, rfl⟩

/-- C5: `_is_invoice` fires iff at least 2 distinct keywords of the fixed set
occur as case-insensitive substrings of the text; the example invoice text
classifies positive, and the text containing only the keyword "total"
classifies negative. -/
theorem is_invoice_iff_two_distinct_keywords (t : String) :
    (is_invoice t = true ↔
      2 ≤ (keywords.filter (fun kw => matchesCaseInsensitive kw t)).length)
    ∧ is_invoice "Invoice #1023, Total: $50, Tax: $4" = true
    ∧ is_invoice "Total: $50" = false := by
  refine ⟨?_, by decide, by decide⟩
  have hcongr :
      keywords.filter (fun kw => matchesCaseInsensitive kw t)
        = keywords.filter (fun kw => hasSubstr kw.data (pyLowerData t)) := by
    apply List.filter_congr
    intro kw hkw
    have hlow : pyLowerData kw = kw.data := by
      fin_cases hkw <;> decide
    simp [matchesCaseInsensitive, hlow]
  rw [hcongr, ← List.countP_eq_length_filter]
  simp [is_invoice]

/-- C8 counterexample: the value "aaaa-bb-cc" is not of the claimed
YYYY-MM-DD digit shape, yet `validate_date` accepts it without raising:
the validator checks only the length and the two dash positions, not that the
remaining characters are digits. -/
theorem validate_date_accepts_nondigit_counterexample :
    validate_date (some ("aaaa-bb-cc".data)) = Except.ok (some ("aaaa-bb-cc".data))
    ∧ claimed_date_shape ("aaaa-bb-cc".data) = false := by
  constructor
  · rfl
  · rfl

/-- C8 (amended): for every non-empty date value, `validate_date` raises a
parse failure iff the value is not a 10-character string that splits as a
4-character, a 2-character and a 2-character segment separated by dashes;
the segment characters themselves are unconstrained (digits are not checked). -/
theorem validate_date_raises_iff_not_dashed_shape (s : List Char) (hne : s ≠ []) :
    raisesError (validate_date (some s)) = true ↔
      ¬ (∃ y m d : List Char,
          s = y ++ '-' :: (m ++ '-' :: d) ∧
          y.length = 4 ∧ m.length = 2 ∧ d.length = 2) := by
  rw [← date_positions_iff_decomp s]
  have hempty : s.isEmpty = false := by
    cases s with
    | nil => exact absurd rfl hne
    | cons a t => rfl
  simp only [validate_date, hempty, Bool.false_eq_true, if_false]
  by_cases hcond : s.length = 10 ∧ s[4]? = some '-' ∧ s[7]? = some '-'
  · obtain ⟨h1, h2, h3⟩ := hcond
    simp [raisesError, h1, h2, h3]
  · constructor
    · intro _
      exact hcond
    · intro _
      rcases hdec : (s.length = 10 && s[4]? == some '-' && s[7]? == some '-') with _ | _
      · simp [hdec, raisesError]
      · exfalso
        apply hcond
        simp only [Bool.and_eq_true, beq_iff_eq, decide_eq_true_eq] at hdec
        exact ⟨hdec.1.1, hdec.1.2, hdec.2⟩

/-- C8 amended-claim witness at the concrete accepted date "2024-01-15". -/
theorem validate_date_raises_iff_not_dashed_shape_witness :
    ("2024-01-15".data ≠ []) ∧
    (raisesError (validate_date (some ("2024-01-15".data))) = true ↔
      ¬ (∃ y m d : List Char,
          "2024-01-15".data = y ++ '-' :: (m ++ '-' :: d) ∧
          y.length = 4 ∧ m.length = 2 ∧ d.length = 2)) :=
  ⟨by decide, validate_date_raises_iff_not_dashed_shape ("2024-01-15".data) (by decide)⟩

/-! ### Theorems: C4 (getHandle caching), C1 (addTexts staleness), C10 (k = 0) -/

/-- Helper: `get_store` always leaves the returned handle cached, keeps the
settings, and for the Chroma backend leaves the staleness flag cleared. -/
theorem get_store_state (m : VectorStoreManager) (w : World) :
    (get_store m w).2.1.store = some (get_store m w).1
    ∧ (get_store m w).2.1.settings = m.settings
    ∧ (pyLower m.settings.vector_store_type = "chroma" →
        (get_store m w).2.1.chromaNeedsReload = false) := by
  by_cases hc : pyLower m.settings.vector_store_type = "chroma"
  · cases hm : m.store with
    | none => simp [get_store, hc, hm]
    | some h => cases hf : m.chromaNeedsReload <;> simp [get_store, hc, hm, hf]
  · cases hm : m.store with
    | none => simp [get_store, hc, hm]
    | some h => simp [get_store, hc, hm]

/-- C4: for the persistent (Chroma) backend, `get_store` rebuilds the handle
from disk iff no handle exists or the staleness flag is set (clearing the
flag), and otherwise returns the cached handle with the state unchanged; for
the ephemeral (FAISS) branch the handle is built on first call and every
later call returns that same cached handle with the state unchanged. -/
theorem get_store_caching (m : VectorStoreManager) (w : World) :
    (pyLower m.settings.vector_store_type = "chroma" →
      ((m.store = none ∨ m.chromaNeedsReload = true) →
        get_store m w =
          ((init_chroma w).1,
           { m with store := some (init_chroma w).1, chromaNeedsReload := false },
           (init_chroma w).2))
      ∧ (∀ h, m.store = some h → m.chromaNeedsReload = false →
          get_store m w = (h, m, w)))
    ∧ (pyLower m.settings.vector_store_type ≠ "chroma" →
      (m.store = none →
        get_store m w = (init_faiss w, { m with store := some (init_faiss w) }, w))
      ∧ (∀ h, m.store = some h → get_store m w = (h, m, w))
      ∧ get_store (get_store m w).2.1 (get_store m w).2.2 =
          ((get_store m w).1, (get_store m w).2.1, (get_store m w).2.2)) := by
  constructor
  · intro hc
    constructor
    · rintro (hnone | hdirty)
      · simp [get_store, hc, hnone]
      · cases hm : m.store with
        | none => simp [get_store, hc, hm]
        | some h => simp [get_store, hc, hm, hdirty]
    · intro h hsome hflag
      simp [get_store, hc, hsome, hflag]
  · intro hc
    refine ⟨?_, ?_, ?_⟩
    · intro hnone
      simp [get_store, hc, hnone]
    · intro h hsome
      simp [get_store, hc, hsome]
    · cases hm : m.store with
      | none => simp [get_store, hc, hm]
      | some h => simp [get_store, hc, hm]

/-- A manager over the Chroma backend with no handle yet and the flag set
(the state `__init__` leaves behind). -/
def mChromaStale : VectorStoreManager :=
  { settings := defaultSettings, store := none, chromaNeedsReload := true }

/-- A manager over the FAISS backend with no handle yet. -/
def mFaissEmpty : VectorStoreManager :=
  { settings := { defaultSettings with vector_store_type := "faiss" },
    store := none, chromaNeedsReload := true }

/-- An on-disk state holding one persisted Chroma text. -/
def wDisk : World := { chromaDisk := some ["x"], faissDisk := none }

/-- C4 witness: the caching discipline evaluated at a stale Chroma manager and
at an empty FAISS manager. -/
theorem get_store_caching_witness :
    (pyLower mChromaStale.settings.vector_store_type = "chroma"
     ∧ (mChromaStale.store = none ∨ mChromaStale.chromaNeedsReload = true)
     ∧ get_store mChromaStale wDisk =
        ((init_chroma wDisk).1,
         { mChromaStale with store := some (init_chroma wDisk).1,
                             chromaNeedsReload := false },
         (init_chroma wDisk).2))
    ∧ (pyLower mFaissEmpty.settings.vector_store_type ≠ "chroma"
       ∧ get_store mFaissEmpty wDisk =
          (init_faiss wDisk, { mFaissEmpty with store := some (init_faiss wDisk) },
           wDisk)) :=
  ⟨⟨by decide, by decide,
    ((get_store_caching mChromaStale wDisk).1 (by decide)).1 (by decide)⟩,
   ⟨by decide,
    ((get_store_caching mFaissEmpty wDisk).2 (by decide)).1 (by decide)⟩⟩

/-- A Chroma manager holding a fresh (non-stale) cached handle, in sync with
the disk: the state right after a read. -/
def mChromaFresh : VectorStoreManager :=
  { settings := defaultSettings,
    store := some { backend := Backend.chroma, contents := ["a"] },
    chromaNeedsReload := false }

/-- The on-disk state matching `mChromaFresh`. -/
def wA : World := { chromaDisk := some ["a"], faissDisk := none }

/-- C1 counterexample: after `add_texts` on the Chroma backend the staleness
flag is `false`, not `true` as the claim states — `add_texts` persists but,
unlike `add_documents`, never sets `_chroma_needs_reload`. -/
theorem add_texts_flag_counterexample :
    (add_texts mChromaFresh wA ["b"]).1.chromaNeedsReload = false
    ∧ (add_documents mChromaFresh wA [{ page_content := "b" }]).1.chromaNeedsReload
        = true := by
  constructor
  · rfl
  · rfl

/-- C1 (amended): for the Chroma backend, every completed `add_texts` call
flushes the store to durable storage, but the staleness flag is `false`
afterwards (`get_store` clears it and `add_texts` never sets it), so the next
read reuses the cached handle instead of rebuilding it. -/
theorem add_texts_flushes_without_marking_stale
    (m : VectorStoreManager) (w : World) (texts : List String)
    (hc : pyLower m.settings.vector_store_type = "chroma")
    (hb : (get_store m w).1.backend = Backend.chroma) :
    (add_texts m w texts).1.chromaNeedsReload = false
    ∧ (add_texts m w texts).2.chromaDisk
        = some ((get_store m w).1.contents ++ texts)
    ∧ (add_texts m w texts).1.store
        = some { (get_store m w).1 with
                   contents := (get_store m w).1.contents ++ texts }
    ∧ get_store (add_texts m w texts).1 (add_texts m w texts).2 =
        ({ (get_store m w).1 with
             contents := (get_store m w).1.contents ++ texts },
         (add_texts m w texts).1, (add_texts m w texts).2) := by
  rcases hgw : get_store m w with ⟨st, m1, w1⟩
  have hflag2 : m1.chromaNeedsReload = false := by
    have h := (get_store_state m w).2.2 hc
    rw [hgw] at h
    exact h
  have hset2 : m1.settings = m.settings := by
    have h := (get_store_state m w).2.1
    rw [hgw] at h
    exact h
  have hb2 : st.backend = Backend.chroma := by
    rw [hgw] at hb
    exact hb
  have hmain : add_texts m w texts =
      ({ m1 with store := some { st with contents := st.contents ++ texts } },
       { w1 with chromaDisk := some (st.contents ++ texts) }) := by
    simp [add_texts, hgw, hb2]
  rw [hmain]
  refine ⟨hflag2, rfl, rfl, ?_⟩
  simp [get_store, hset2, hc, hflag2]

/-- C1 amended-claim witness at the fresh Chroma manager. -/
theorem add_texts_flushes_without_marking_stale_witness :
    (pyLower mChromaFresh.settings.vector_store_type = "chroma")
    ∧ ((get_store mChromaFresh wA).1.backend = Backend.chroma)
    ∧ ((add_texts mChromaFresh wA ["b"]).1.chromaNeedsReload = false
       ∧ (add_texts mChromaFresh wA ["b"]).2.chromaDisk
           = some ((get_store mChromaFresh wA).1.contents ++ ["b"])
       ∧ (add_texts mChromaFresh wA ["b"]).1.store
           = some { (get_store mChromaFresh wA).1 with
                      contents := (get_store mChromaFresh wA).1.contents ++ ["b"] }
       ∧ get_store (add_texts mChromaFresh wA ["b"]).1
             (add_texts mChromaFresh wA ["b"]).2 =
           ({ (get_store mChromaFresh wA).1 with
                contents := (get_store mChromaFresh wA).1.contents ++ ["b"] },
            (add_texts mChromaFresh wA ["b"]).1,
            (add_texts mChromaFresh wA ["b"]).2)) :=
  ⟨by decide, by decide,
   add_texts_flushes_without_marking_stale mChromaFresh wA ["b"]
     (by decide) (by decide)⟩

/-- A fixed four-result relevance ranking, ignoring store and query. -/
def rankedFour : StoreHandle → String → List Document :=
  fun _ _ =>
    [{ page_content := "r1" }, { page_content := "r2" },
     { page_content := "r3" }, { page_content := "r4" }]

/-- C10: passing `k = 0` to `similarity_search` is treated as unspecified via
Python falsiness: the call behaves exactly like a call without `k` and returns
the top `retrieval_top_k` results; the effective `k` can never be made zero
through the parameter while the configured default is nonzero, so a caller
cannot request an empty result set through `k`. -/
theorem similarity_search_k_zero_defaults
    (ranked : StoreHandle → String → List Document)
    (m : VectorStoreManager) (w : World) (q : String) :
    (similarity_search ranked m w q (some 0)).1
        = (similarity_search ranked m w q none).1
    ∧ (similarity_search ranked m w q (some 0)).1
        = (ranked (get_store m w).1 q).take m.settings.retrieval_top_k.toNat
    ∧ (m.settings.retrieval_top_k ≠ 0 →
        ∀ k : Option Int, py_or_int k m.settings.retrieval_top_k ≠ 0)
    ∧ (0 < m.settings.retrieval_top_k → ranked (get_store m w).1 q ≠ [] →
        (similarity_search ranked m w q (some 0)).1 ≠ []) := by
  refine ⟨by simp [similarity_search, py_or_int], by simp [similarity_search, py_or_int], ?_, ?_⟩
  · intro hd k
    cases k with
    | none => exact hd
    | some v =>
        by_cases hv : v = 0
        · subst hv
          simp only [py_or_int, if_pos rfl]
          exact hd
        · simp only [py_or_int, if_neg hv]
          exact hv
  · intro hpos hne
    have h1 : (similarity_search ranked m w q (some 0)).1
        = (ranked (get_store m w).1 q).take m.settings.retrieval_top_k.toNat := by
      simp [similarity_search, py_or_int]
    rw [h1]
    intro hcontr
    have hlen := congrArg List.length hcontr
    rw [List.length_take] at hlen
    simp only [List.length_nil, Nat.min_eq_zero_iff] at hlen
    rcases hlen with h | h
    · omega
    · exact hne (List.length_eq_zero.mp h)

/-- C10 witness: with the default top-k of 3 and a four-result ranking,
`k = 0` returns the same non-empty result list as an unspecified `k`. -/
theorem similarity_search_k_zero_defaults_witness :
    (similarity_search rankedFour mChromaFresh wA "q" (some 0)).1
        = (similarity_search rankedFour mChromaFresh wA "q" none).1
    ∧ (0 < mChromaFresh.settings.retrieval_top_k)
    ∧ (rankedFour (get_store mChromaFresh wA).1 "q" ≠ [])
    ∧ (similarity_search rankedFour mChromaFresh wA "q" (some 0)).1 ≠ [] :=
  ⟨(similarity_search_k_zero_defaults rankedFour mChromaFresh wA "q").1,
   by decide, by decide,
   (similarity_search_k_zero_defaults rankedFour mChromaFresh wA "q").2.2.2
     (by decide) (by decide)⟩

/-! ### Document pipeline (services/document_service.py, api/routes/documents.py) -/

/-- Python keyword-argument binding: a call whose keyword arguments are not
all parameter names of the callee raises `TypeError` before the body runs. -/
def acceptsKwargs (params kwargs : List String) : Bool :=
  kwargs.all (fun kw => params.contains kw)

/-- The parameters of `InvoiceExtractor.save_to_db`
(invoice_extractor.py line 81, `self` excluded): `db`, `invoice_data`,
`file_path`. -/
def save_to_db_params : List String :=
  ["db", "invoice_data", "file_path"]

/-- The keyword arguments of the `save_to_db` call inside
`DocumentService.process_file` (document_service.py line 98): `user_id`. -/
def process_file_save_kwargs : List String :=
  ["user_id"]

/-- The `save_to_db` call as `process_file` performs it: if the keyword
arguments bind, the body runs `db.add(invoice)` and `await db.commit()`
(one commit, or the commit's own failure); otherwise Python raises
`TypeError` before the body is entered. -/
def call_save_to_db (commit_outcome : Except String Unit) : Except String Nat :=
  if acceptsKwargs save_to_db_params process_file_save_kwargs then
    match commit_outcome with
    | Except.ok _ => Except.ok 1
    | Except.error e => Except.error e
  else
    Except.error "TypeError: save_to_db() got an unexpected keyword argument"

/-- The image extensions accepted by `process_file`
(document_service.py line 76). -/
def image_exts : List String :=
  [".png", ".jpg", ".jpeg", ".tiff", ".bmp"]

/-- `DocumentService.process_documents` (lines 133-158): split the documents
with the configured splitter, add the chunks to the vector store, and return
the number of chunks. -/
def process_documents (splitter : List Document → List Document)
    (m : VectorStoreManager) (w : World) (documents : List Document) :
    Nat × VectorStoreManager × World :=
  let chunks := splitter documents
  let r := add_documents m w chunks
  (chunks.length, r.1, r.2)

instance {ε α : Type} [DecidableEq ε] [DecidableEq α] : DecidableEq (Except ε α) :=
  fun a b =>
    match a, b with
    | Except.ok x, Except.ok y =>
        if h : x = y then isTrue (by subst h; rfl)
        else isFalse (fun hc => Except.noConfusion hc (fun hxy => h hxy))
    | Except.error x, Except.error y =>
        if h : x = y then isTrue (by subst h; rfl)
        else isFalse (fun hc => Except.noConfusion hc (fun hxy => h hxy))
    | Except.ok _, Except.error _ => isFalse (fun hc => Except.noConfusion hc)
    | Except.error _, Except.ok _ => isFalse (fun hc => Except.noConfusion hc)

/-- The outcome of one `process_file` call: the returned value or the
propagated exception, the number of relational commits performed, and the
vector-store state left behind. -/
structure ProcessFileResult where
  result : Except String Nat
  commits : Nat
  vsm : VectorStoreManager
  world : World
deriving DecidableEq, Repr

/-- `DocumentService.process_file` (lines 62-109).  The external effects are
supplied as oracles: `splitter` for the configured text splitter, `extracted`
for the PDF/OCR extraction outcome, `extract_outcome` for the LLM extraction
plus schema validation of the invoice branch, and `commit_outcome` for the
relational commit.  The `try/except` around the invoice branch (lines 95-100)
swallows every branch exception; the keyword-argument mismatch of the
`save_to_db` call is modelled by `call_save_to_db`. -/
def process_file (splitter : List Document → List Document)
    (m : VectorStoreManager) (w : World) (file_ext : String)
    (extracted : Except String (List Document))
    (extract_outcome : Except String Unit)
    (commit_outcome : Except String Unit) : ProcessFileResult :=
  if file_ext = ".pdf" || image_exts.contains file_ext then
    match extracted with
    | Except.error e => { result := Except.error e, commits := 0, vsm := m, world := w }
    | Except.ok documents =>
      if documents.isEmpty then
        { result := Except.ok 0, commits := 0, vsm := m, world := w }
      else
        let full_text := String.intercalate "\n\n" (documents.map Document.page_content)
        let commits :=
          if is_invoice full_text then
            match extract_outcome with
            | Except.error _ => 0
            | Except.ok _ =>
              match call_save_to_db commit_outcome with
              | Except.ok c => c
              | Except.error _ => 0
          else 0
        let r := process_documents splitter m w documents
        { result := Except.ok r.1, commits := commits, vsm := r.2.1, world := r.2.2 }
  else
    { result := Except.ok 0, commits := 0, vsm := m, world := w }

/-- A job status in the `_upload_results` map (api/routes/documents.py). -/
inductive JobStatus where
  | processing
  | success (chunks_created : Nat)
  | error (message : String)
deriving DecidableEq, Repr

/-- The single status written by `process_file_background` (lines 50-79):
`success` with the chunk count on a normal return, `error` with the failure
message truncated to 200 characters otherwise. -/
def finalStatus (pf : Except String Nat) : JobStatus :=
  match pf with
  | Except.ok n => JobStatus.success n
  | Except.error e => JobStatus.error (e.take 200)

/-- `upload_file` initialising `_upload_results[upload_id] = processing`
(lines 123-126); dictionary assignment, modelled by shadowing. -/
def upload_write (jobs : List (String × JobStatus)) (uploadId : String) :
    List (String × JobStatus) :=
  (uploadId, JobStatus.processing) :: jobs

/-- `process_file_background` writing the job's single terminal status
(lines 64-79). -/
def background_write (jobs : List (String × JobStatus)) (uploadId : String)
    (pf : Except String Nat) : List (String × JobStatus) :=
  (uploadId, finalStatus pf) :: jobs

/-- `get_upload_status`: the current status of a job id in the map. -/
def lookupJob (jobs : List (String × JobStatus)) (uploadId : String) :
    Option JobStatus :=
  (jobs.find? (fun e => e.1 == uploadId)).map (fun e => e.2)

/-- The status sequence a job exhibits through its lifecycle: the status
after `upload_file` wrote `processing`, then the status after the background
task wrote its terminal status. -/
def jobHistory (jobs : List (String × JobStatus)) (uploadId : String)
    (pf : Except String Nat) : List (Option JobStatus) :=
  let j1 := upload_write jobs uploadId
  let j2 := background_write j1 uploadId pf
  [lookupJob j1 uploadId, lookupJob j2 uploadId]

/-! ### DocumentService construction (services/document_service.py) -/

/-- The fields of `InvoiceExtractor` its constructor stores (the parser and
prompt are built deterministically from the schema); the collaborators are
abstract handles. -/
structure InvoiceExtractor where
  llm_client : Nat
  settings : Settings
deriving DecidableEq, Repr

/-- The fields `DocumentService.__init__` stores (lines 24-55); collaborators
are abstract handles, and the text splitter is recorded by its configured
parameters. -/
structure DocumentService where
  settings : Settings
  vectorstore : Nat
  ocr_processor : Nat
  pdf_processor : Nat
  llm_client : Nat
  db : Nat
  invoice_extractor : InvoiceExtractor
  splitter_chunk_size : Int
  splitter_chunk_overlap : Int
deriving DecidableEq, Repr

set_option linter.unusedVariables false in
/-- `DocumentService.__init__`: stores its collaborators, always constructs a
fresh `InvoiceExtractor(llm_client, settings)` (line 49) — the optional
`invoice_extractor` argument is received but never read — and configures the
splitter from the settings. -/
def DocumentService.init (settings : Settings)
    (vectorstore ocr_processor pdf_processor llm_client db : Nat)
    (invoice_extractor : Option InvoiceExtractor) : DocumentService :=
  { settings := settings
    vectorstore := vectorstore
    ocr_processor := ocr_processor
    pdf_processor := pdf_processor
    llm_client := llm_client
    db := db
    invoice_extractor := { llm_client := llm_client, settings := settings }
    splitter_chunk_size := settings.chunk_size
    splitter_chunk_overlap := settings.chunk_overlap }

/-! ### Theorems: C2 (side-path isolation), C3 (commit), C7 (job lifecycle), C9 -/

/-- C2: for every file whose extraction succeeds with a non-empty document
list, every outcome of the structured-extraction branch (LLM extraction or
schema validation failure, and every commit outcome) is swallowed inside
`process_file`: the call still returns the chunk count, and the background
task records the job as `success` with that `chunks_created` value. -/
theorem process_file_side_path_isolation
    (splitter : List Document → List Document)
    (m : VectorStoreManager) (w : World) (docs : List Document)
    (extract_outcome commit_outcome : Except String Unit)
    (hne : docs ≠ []) :
    (process_file splitter m w ".pdf" (Except.ok docs)
        extract_outcome commit_outcome).result
      = Except.ok (splitter docs).length
    ∧ finalStatus (process_file splitter m w ".pdf" (Except.ok docs)
        extract_outcome commit_outcome).result
      = JobStatus.success (splitter docs).length := by
  have hemp : docs.isEmpty = false := by
    cases docs with
    | nil => exact absurd rfl hne
    | cons a t => rfl
  constructor
  · simp [process_file, hemp, process_documents]
  · simp [process_file, hemp, process_documents, finalStatus]

/-- A one-document extraction result used as concrete input. -/
def docX : List Document := [{ page_content := "plain page" }]

/-- C2 witness: a forced failure of the structured-extraction branch on a
one-document file still yields a returned chunk count of 1 and job status
`success 1`. -/
theorem process_file_side_path_isolation_witness :
    docX ≠ []
    ∧ ((process_file (fun l => l) mChromaStale wDisk ".pdf" (Except.ok docX)
          (Except.error "malformed LLM response") (Except.ok ())).result
        = Except.ok 1
      ∧ finalStatus (process_file (fun l => l) mChromaStale wDisk ".pdf"
          (Except.ok docX) (Except.error "malformed LLM response")
          (Except.ok ())).result
        = JobStatus.success 1) :=
  ⟨by decide,
   process_file_side_path_isolation (fun l => l) mChromaStale wDisk docX
     (Except.error "malformed LLM response") (Except.ok ()) (by decide)⟩

/-- A text on which the invoice classifier fires. -/
def invoiceText : String := "Invoice #1023, Total: $50, Tax: $4"

/-- C3 (code bug): the `save_to_db` call inside `process_file` passes the
keyword argument `user_id`, which `save_to_db` does not accept, so the call
raises `TypeError` before any record is constructed; the exception is
swallowed by the branch handler, and the number of relational commits is 0
for every input — never the "exactly once" the claim states — while the file
is still indexed successfully (here: one chunk). -/
theorem process_file_never_commits_invoice
    (splitter : List Document → List Document)
    (m : VectorStoreManager) (w : World) (docs : List Document)
    (commit_outcome : Except String Unit) :
    acceptsKwargs save_to_db_params process_file_save_kwargs = false
    ∧ (process_file splitter m w ".pdf" (Except.ok docs)
        (Except.ok ()) commit_outcome).commits = 0
    ∧ is_invoice invoiceText = true
    ∧ (process_file (fun l => l) mChromaStale wDisk ".pdf"
        (Except.ok [{ page_content := invoiceText }])
        (Except.ok ()) (Except.ok ())).result = Except.ok 1
    ∧ (process_file (fun l => l) mChromaStale wDisk ".pdf"
        (Except.ok [{ page_content := invoiceText }])
        (Except.ok ()) (Except.ok ())).commits = 0 := by
  refine ⟨by decide, ?_, by decide, by decide, by decide⟩
  by_cases hemp : docs.isEmpty
  · simp [process_file, hemp]
  · have hcall : ∀ co, call_save_to_db co
        = Except.error "TypeError: save_to_db() got an unexpected keyword argument" := by
      intro co
      simp [call_save_to_db, acceptsKwargs, save_to_db_params, process_file_save_kwargs]
    simp [process_file, hemp, hcall]

/-- C7: for every job id, the status sequence observed through the results
map is `processing` followed by exactly one terminal status — `success` with
the chunk count when the background processing returns normally, `error` with
the 200-character-truncated message when it raises — and the terminal status
is never `processing` again. -/
theorem job_lifecycle_monotonic (jobs : List (String × JobStatus))
    (uploadId : String) (pf : Except String Nat) (n : Nat) (e : String) :
    jobHistory jobs uploadId pf
      = [some JobStatus.processing, some (finalStatus pf)]
    ∧ finalStatus pf ≠ JobStatus.processing
    ∧ ((∃ k, finalStatus pf = JobStatus.success k)
        ∨ (∃ msg, finalStatus pf = JobStatus.error msg))
    ∧ finalStatus (Except.ok n) = JobStatus.success n
    ∧ finalStatus (Except.error e) = JobStatus.error (e.take 200) := by
  refine ⟨?_, ?_, ?_, rfl, rfl⟩
  · simp [jobHistory, upload_write, background_write, lookupJob]
  · cases pf <;> simp [finalStatus]
  · cases pf with
    | ok k => exact Or.inl ⟨k, rfl⟩
    | error msg => exact Or.inr ⟨msg.take 200, rfl⟩

/-- C9: `DocumentService.__init__` ignores the optional `invoice_extractor`
argument entirely: the constructed service is identical for every supplied
value (including `none` and any caller-supplied instance), and the stored
extractor is always the freshly built `InvoiceExtractor(llm_client,
settings)`, so no operation on the service can depend on the argument. -/
theorem document_service_ignores_injected_extractor (settings : Settings)
    (vectorstore ocr_processor pdf_processor llm_client db : Nat)
    (e1 e2 : Option InvoiceExtractor) :
    DocumentService.init settings vectorstore ocr_processor pdf_processor
        llm_client db e1
      = DocumentService.init settings vectorstore ocr_processor pdf_processor
        llm_client db e2
    ∧ (DocumentService.init settings vectorstore ocr_processor pdf_processor
        llm_client db e1).invoice_extractor
      = { llm_client := llm_client, settings := settings } :=
  ⟨rfl, rfl⟩
